import Mathlib

/-!
Formal model of the sale-economics core of `src/src/components/SalesForm.tsx`
(monthly 30/45/90-day report app).

Numbers are modelled as rationals (`ℚ`).  JavaScript `NaN` / parse failure is
modelled by `Option ℚ` being `none`; infinities are outside the model.
`Math.round(x * 100) / 100` is modelled by `round2`, using the real-arithmetic
semantics of `Math.round` (floor of `x + 1/2`, i.e. half-up toward +∞).

The four calculation functions (`calculateTotalCommission`,
`calculateFDIPoints`, `calculateFDICost`, `calculateDailyVPG`) are imported by
the form from `../types/sales`, a file of this repository that is not part of
the excerpted source; they are modelled from the spec (§4), with the tier
tables and rate constants the spec leaves open taken as explicit configuration
data (spec §9).
-/

namespace SalesForm

/-- `Math.round x` in real arithmetic: round half up toward +∞. -/
def jround (x : ℚ) : ℚ := (⌊x + 1/2⌋ : ℤ)

/-- `Math.round (x * 100) / 100`: round to 2 decimal places, half up. -/
def round2 (x : ℚ) : ℚ := (⌊x * 100 + 1/2⌋ : ℤ) / 100

/-- JavaScript `x || d` for a (non-NaN) number `x`: `d` when `x` is falsy
(i.e. zero), else `x`.  The NaN case is handled upstream via `Option`. -/
def jsOr (x d : ℚ) : ℚ := if x = 0 then d else x

/-- Numeric value of a decimal digit character. -/
def digitVal (c : Char) : ℕ := c.toNat - ('0').toNat

/-- Value of a digit string read in base 10. -/
def natOfDigits (l : List Char) : ℕ := l.foldl (fun a c => 10 * a + digitVal c) 0

/-- JavaScript whitespace skipped by `parseFloat`. -/
def isSpaceChar (c : Char) : Bool := c == ' ' || c == '\t' || c == '\n' || c == '\r'

/-- Syntactic phase of JavaScript `parseFloat`: skip leading whitespace, read
an optional sign, a decimal mantissa and an optional exponent from the longest
valid prefix of `s`.  Returns the sign, the value of the integer digits, the
value and length of the fraction digits, and the exponent; `none` models the
`NaN` result when no mantissa digits can be read. -/
def parseParts (s : String) : Option (ℤ × ℕ × ℕ × ℕ × ℤ) :=
  let cs := s.toList.dropWhile isSpaceChar
  let sgn : ℤ := match cs with
    | '-' :: _ => -1
    | _ => 1
  let cs := match cs with
    | '-' :: rest => rest
    | '+' :: rest => rest
    | _ => cs
  let intDs := cs.takeWhile Char.isDigit
  let cs := cs.dropWhile Char.isDigit
  let fracDs := match cs with
    | '.' :: rest => rest.takeWhile Char.isDigit
    | _ => []
  let cs := match cs with
    | '.' :: rest => rest.dropWhile Char.isDigit
    | _ => cs
  if intDs.isEmpty && fracDs.isEmpty then
    none
  else
    let e : ℤ := match cs with
      | c :: rest =>
        if c == 'e' || c == 'E' then
          let esgn : ℤ := match rest with
            | '-' :: _ => -1
            | _ => 1
          let rest := match rest with
            | '-' :: r => r
            | '+' :: r => r
            | _ => rest
          let eds := rest.takeWhile Char.isDigit
          if eds.isEmpty then 0 else esgn * (natOfDigits eds : ℤ)
        else 0
      | [] => 0
    some (sgn, natOfDigits intDs, natOfDigits fracDs, fracDs.length, e)

/-- Model of JavaScript `parseFloat`: the numeric value of the decomposition
read by `parseParts`; `none` models `NaN`.  (`Infinity` literals are outside
the rational model.) -/
def parseFloat (s : String) : Option ℚ :=
  match parseParts s with
  | none => none
  | some (sgn, ip, fp, fl, e) =>
    some ((sgn : ℚ) * ((ip : ℚ) + (fp : ℚ) / (10 : ℚ) ^ fl) * (10 : ℚ) ^ e)

/-- Line 85 / 111: `Math.round(parseFloat(s) * 100) / 100 || 0` — the sale
amount normalization applied at submit time and on each amount keystroke. -/
def normalizeSaleAmount (s : String) : ℚ :=
  match parseFloat s with
  | none => 0
  | some x => jsOr (round2 x) 0

/-- Line 89 / 129: `parseFloat(s) || 0` — the redeemed-points normalization. -/
def parseOr0 (s : String) : ℚ :=
  match parseFloat s with
  | none => 0
  | some x => jsOr x 0

-- Basic facts about `round2`.

theorem round2_mono {x y : ℚ} (h : x ≤ y) : round2 x ≤ round2 y := by
  unfold round2
  have hf : ⌊x * 100 + 1/2⌋ ≤ ⌊y * 100 + 1/2⌋ := by
    apply Int.floor_le_floor
    have : x * 100 ≤ y * 100 := by nlinarith
    linarith
  have : ((⌊x * 100 + 1/2⌋ : ℤ) : ℚ) ≤ ((⌊y * 100 + 1/2⌋ : ℤ) : ℚ) := by
    exact_mod_cast hf
  linarith

theorem round2_zero : round2 0 = 0 := by
  unfold round2
  norm_num

theorem round2_hundred : round2 100 = 100 := by
  unfold round2
  norm_num

/-- `round2` is idempotent: a value already expressed in hundredths is fixed. -/
theorem round2_idem (x : ℚ) : round2 (round2 x) = round2 x := by
  unfold round2
  rw [div_mul_cancel₀]
  · rw [Int.floor_int_add]
    norm_num
  · norm_num

-- ---------------------------------------------------------------------------
-- Spec-modelled calculation library (`../types/sales`, not in the excerpt)
-- ---------------------------------------------------------------------------

/-- Sale type variant selecting the commission schedule (spec §3). -/
inductive SaleType where
  | DEED : SaleType
  | TRUST : SaleType
deriving DecidableEq

/-- Modelled from the spec: configuration data for the calculation library
(`../types/sales` is not in the excerpted source).  Per §4.1 there are two
ordered tier tables of `(volumeThreshold, rate)` pairs, one per sale type;
per §4.2/§9 the FDI points-per-dollar ratio and the excess-point charge rate
are named configuration constants whose concrete values the spec leaves open. -/
structure Config where
  deedTiers : List (ℚ × ℚ)
  trustTiers : List (ℚ × ℚ)
  fdiPointsRate : ℚ
  fdiExcessRate : ℚ

/-- Tier table selected by the sale type (spec §4.1: two tables, one per type). -/
def tiersFor (cfg : Config) : SaleType → List (ℚ × ℚ)
  | .DEED => cfg.deedTiers
  | .TRUST => cfg.trustTiers

/-- Scan an ascending tier table, keeping the rate of the last tier whose
threshold does not exceed `v`; `base` is the rate in force before any tier
matches.  On a table sorted ascending by threshold this returns the rate of
the highest threshold not exceeding `v` (spec §4.1). -/
def tierLookup : List (ℚ × ℚ) → ℚ → ℚ → ℚ
  | [], _, base => base
  | (t, r) :: rest, v, base => if t ≤ v then tierLookup rest v r else base

/-- Modelled from the spec (§4.1): resolve the raw schedule rate for prior
volume `v` — the first tier's rate is the base rate, applied when `v` is
below the lowest threshold; an empty table yields 0. -/
def resolveRate : List (ℚ × ℚ) → ℚ → ℚ
  | [], _ => 0
  | (t, r) :: rest, v => tierLookup ((t, r) :: rest) v r

/-- Modelled from the spec (§4.1): `totalCommissionRate` from `../types/sales`
(imported as `calculateTotalCommission`).  Negative prior volume is treated as
0 before tier lookup; the output is clamped to [0, 100] and rounded to 2
decimal places.  `saleAmount` is accepted but unused, per the spec's contract. -/
def calculateTotalCommission (cfg : Config) (saleAmount priorVolume : ℚ)
    (ty : SaleType) : ℚ :=
  round2 (min 100 (max 0 (resolveRate (tiersFor cfg ty) (max 0 priorVolume))))

/-- Modelled from the spec (§4.2 Contract A): `fdiAvailablePoints` from
`../types/sales` (imported as `calculateFDIPoints`): a fixed points-per-dollar
ratio applied to the (non-negativity-clamped) sale amount, rounded to 2
decimal places. -/
def calculateFDIPoints (cfg : Config) (saleAmount : ℚ) : ℚ :=
  round2 (max 0 saleAmount * cfg.fdiPointsRate)

/-- Modelled from the spec (§4.2 Contract B): `fdiDiscountCost` from
`../types/sales` (imported as `calculateFDICost`): redemptions within the
granted allotment are free; an excess is charged proportionally at the
configured per-point rate, rounded to 2 decimal places.  Negative quantities
are clamped to 0 first (§4.4). -/
def calculateFDICost (cfg : Config) (pointsRedeemed pointsAvailable : ℚ) : ℚ :=
  let p := max 0 pointsRedeemed
  let avail := max 0 pointsAvailable
  if p ≤ avail then 0 else round2 ((p - avail) * cfg.fdiExcessRate)

/-- Modelled from the spec (§4.3): `dailyProductivityMetric` from
`../types/sales` (imported as `calculateDailyVPG`): `saleAmount / tourCount`
when the tour count is positive, and 0 otherwise (division by zero is a
defined zero result; a negative count is clamped to 0 per §4.4). -/
def calculateDailyVPG (saleAmount : ℚ) (tourCount : ℤ) : ℚ :=
  if 0 < tourCount then saleAmount / (tourCount : ℚ) else 0

-- ---------------------------------------------------------------------------
-- Well-formedness of tier tables (spec §4.1 and §8)
-- ---------------------------------------------------------------------------

/-- Tier rates at or after this point in the table are at least `b` and
non-decreasing (spec §8: "tiers only increase or stay flat as volume grows"). -/
def ratesFrom (b : ℚ) : List (ℚ × ℚ) → Prop
  | [] => True
  | (_, r) :: rest => b ≤ r ∧ ratesFrom r rest

/-- Thresholds at or after this point are at least `b` and ascending. -/
def sortedFrom (b : ℚ) : List (ℚ × ℚ) → Prop
  | [] => True
  | (t, _) :: rest => b ≤ t ∧ sortedFrom t rest

/-- A well-formed tier table (spec §4.1: thresholds sorted ascending; §8:
rates non-decreasing across tiers). -/
def wfTiers : List (ℚ × ℚ) → Prop
  | [] => True
  | (t, r) :: rest => sortedFrom t rest ∧ ratesFrom r rest

theorem tierLookup_ge_base (tiers : List (ℚ × ℚ)) (v base : ℚ)
    (h : ratesFrom base tiers) : base ≤ tierLookup tiers v base := by
  induction tiers generalizing base with
  | nil => exact le_refl base
  | cons p rest ih =>
    obtain ⟨t, r⟩ := p
    obtain ⟨hbr, hrest⟩ := h
    unfold tierLookup
    by_cases hv : t ≤ v
    · simp only [hv, if_true]
      exact le_trans hbr (ih r hrest)
    · simp only [hv, if_false]
      exact le_refl base

theorem tierLookup_mono (tiers : List (ℚ × ℚ)) (v₁ v₂ base : ℚ)
    (hv : v₁ ≤ v₂) (h : ratesFrom base tiers) :
    tierLookup tiers v₁ base ≤ tierLookup tiers v₂ base := by
  induction tiers generalizing base with
  | nil => exact le_refl base
  | cons p rest ih =>
    obtain ⟨t, r⟩ := p
    obtain ⟨hbr, hrest⟩ := h
    unfold tierLookup
    by_cases h1 : t ≤ v₁
    · have h2 : t ≤ v₂ := le_trans h1 hv
      simp only [h1, h2, if_true]
      exact ih r hrest
    · by_cases h2 : t ≤ v₂
      · simp only [h1, h2, if_true, if_false]
        exact le_trans hbr (tierLookup_ge_base rest v₂ r hrest)
      · simp only [h1, h2, if_false]
        exact le_refl base

theorem resolveRate_mono (tiers : List (ℚ × ℚ)) (v₁ v₂ : ℚ)
    (hv : v₁ ≤ v₂) (h : wfTiers tiers) :
    resolveRate tiers v₁ ≤ resolveRate tiers v₂ := by
  cases tiers with
  | nil => exact le_refl 0
  | cons p rest =>
    obtain ⟨t, r⟩ := p
    obtain ⟨_, hrates⟩ := h
    exact tierLookup_mono ((t, r) :: rest) v₁ v₂ r hv ⟨le_refl r, hrates⟩

-- ---------------------------------------------------------------------------
-- Form state and handlers (SalesForm.tsx lines 14-48, 83-108, 128-138)
-- ---------------------------------------------------------------------------

/-- The `FormData` record of the component (lines 14-30).  Text fields are
strings; `numberOfTours` is the integer kept in state by the tours input;
`fdiPoints`, `fdiGivenPoints` and `fdiCost` are the numeric derived fields
cached in the form state. -/
structure FormData where
  date : String
  clientLastName : String
  leadNumber : String
  numberOfTours : ℤ
  managerName : String
  saleAmount : String
  commissionPercentage : String
  commissionAmount : String
  fdi : String
  fdiPoints : ℚ
  fdiGivenPoints : ℚ
  fdiCost : ℚ
  notes : String
  saleType : SaleType
  isCancelled : Bool
deriving DecidableEq

/-- `initialFormData` (lines 32-48); the date string is the runtime current
date, passed in as a parameter. -/
def initialFormData (today : String) : FormData :=
  { date := today
    clientLastName := ""
    leadNumber := ""
    numberOfTours := 0
    managerName := ""
    saleAmount := ""
    commissionPercentage := ""
    commissionAmount := ""
    fdi := ""
    fdiPoints := 0
    fdiGivenPoints := 0
    fdiCost := 0
    notes := ""
    saleType := SaleType.DEED
    isCancelled := false }

/-- The record handed to `onSubmit` (lines 93-104): the spread of `formData`
with the derived numeric fields overriding the raw text fields. -/
structure SaleRecord where
  date : String
  clientLastName : String
  leadNumber : String
  numberOfTours : ℤ
  managerName : String
  saleAmount : ℚ
  commissionPercentage : ℚ
  commissionAmount : ℚ
  fdi : String
  fdiPoints : ℚ
  fdiGivenPoints : ℚ
  fdiCost : ℚ
  dailyVPG : ℚ
  notes : String
  saleType : SaleType
  isCancelled : Bool
deriving DecidableEq

/-- `handleSubmit` (lines 83-108): every derived field is recomputed from the
current raw inputs and the result is passed to `onSubmit`.  `cfg` is the
calculation library's configuration and `currentTotalVolume` the prop of the
same name. -/
def handleSubmit (cfg : Config) (currentTotalVolume : ℚ) (fd : FormData) :
    SaleRecord :=
  let saleAmount := normalizeSaleAmount fd.saleAmount
  let totalCommissionPercentage :=
    calculateTotalCommission cfg saleAmount currentTotalVolume fd.saleType
  let commissionAmount := round2 (saleAmount * (totalCommissionPercentage / 100))
  let fdiPoints := calculateFDIPoints cfg saleAmount
  let fdiGivenPoints := parseOr0 fd.fdi
  let fdiCost := calculateFDICost cfg fdiGivenPoints fdiPoints
  let dailyVPG := calculateDailyVPG saleAmount fd.numberOfTours
  { date := fd.date
    clientLastName := fd.clientLastName
    leadNumber := fd.leadNumber
    numberOfTours := fd.numberOfTours
    managerName := fd.managerName
    saleAmount := saleAmount
    commissionPercentage := round2 totalCommissionPercentage
    commissionAmount := commissionAmount
    fdi := fd.fdi
    fdiPoints := fdiPoints
    fdiGivenPoints := fdiGivenPoints
    fdiCost := fdiCost
    dailyVPG := dailyVPG
    notes := fd.notes
    saleType := fd.saleType
    isCancelled := fd.isCancelled }

/-- `handleFDIChange` (lines 128-138): reparse the redeemed-points text,
recompute the discount cost against the cached `fdiPoints`, and patch only
`fdi`, `fdiGivenPoints` and `fdiCost` into the form state. -/
def handleFDIChange (cfg : Config) (fd : FormData) (fdi : String) : FormData :=
  let fdiGivenPoints := parseOr0 fdi
  let fdiCost := calculateFDICost cfg fdiGivenPoints fd.fdiPoints
  { fd with fdi := fdi, fdiGivenPoints := fdiGivenPoints, fdiCost := fdiCost }

/-- A concrete configuration used to instantiate hypotheses in witnesses:
two-tier schedules with ascending thresholds and non-decreasing rates, a
points ratio of 1/10 per dollar, and a $2 per excess point charge. -/
def sampleConfig : Config :=
  { deedTiers := [(0, 10), (10000, 12), (50000, 15)]
    trustTiers := [(0, 8), (10000, 10)]
    fdiPointsRate := 1/10
    fdiExcessRate := 2 }

-- ---------------------------------------------------------------------------
-- Shared helper lemmas
-- ---------------------------------------------------------------------------

theorem round2_one : round2 1 = 1 := by
  unfold round2
  norm_num

/-- The resolved commission rate is already expressed in hundredths, so a
second 2-decimal rounding is the identity on it. -/
theorem round2_calculateTotalCommission (cfg : Config) (a v : ℚ)
    (ty : SaleType) :
    round2 (calculateTotalCommission cfg a v ty) =
      calculateTotalCommission cfg a v ty := by
  unfold calculateTotalCommission
  exact round2_idem _

/-- Sample form state used to instantiate witnesses: the initial form state
for a fixed current date. -/
def sampleForm : FormData := initialFormData "2026-10-11"

/-- `sampleForm` with the cached derived fields overwritten: it agrees with
`sampleForm` on all raw inputs but not on the cached derived values. -/
def sampleFormStale : FormData :=
  { sampleForm with
    commissionPercentage := "99.99"
    commissionAmount := "12345.67"
    fdiPoints := 42
    fdiGivenPoints := 8
    fdiCost := 7 }

-- ---------------------------------------------------------------------------
-- Claim theorems
-- ---------------------------------------------------------------------------

/-- C1, counterexample: the claim says a negative parsed sale amount
normalizes to 0, but `Math.round(parseFloat("-5") * 100) / 100 || 0`
evaluates to `-5` (a nonzero number is truthy, so `|| 0` does not clamp it):
the normalization at lines 85/111 lets negative values through. -/
theorem C1_counterexample :
    parseFloat "-5" = some (-5) ∧ (-5 : ℚ) < 0 ∧
      normalizeSaleAmount "-5" = -5 ∧ normalizeSaleAmount "-5" ≠ 0 := by
  have hp : parseFloat "-5" = some (-5) := by
    rw [parseFloat, show parseParts "-5" = some (-1, 5, 0, 0, 0) from by decide]
    norm_num
  refine ⟨hp, by norm_num, ?_, ?_⟩
  · rw [normalizeSaleAmount, hp]
    norm_num [jsOr, round2]
  · rw [normalizeSaleAmount, hp]
    norm_num [jsOr, round2]

/-- C1, amended: for every sale-amount input string, if parsing fails or
yields NaN the normalized sale amount used by the derived-field computations
is 0; otherwise it is the parsed value rounded to 2 decimal places — even
when that value is negative (negative values are not clamped to 0). -/
theorem C1_amended_normalization (s : String) :
    (parseFloat s = none → normalizeSaleAmount s = 0) ∧
    (∀ x : ℚ, parseFloat s = some x → normalizeSaleAmount s = round2 x) := by
  constructor
  · intro h
    rw [normalizeSaleAmount, h]
  · intro x h
    rw [normalizeSaleAmount, h]
    by_cases h0 : round2 x = 0
    · simp [jsOr, h0]
    · simp [jsOr, h0]

/-- C1, witness: at the non-numeric input `"abc"` the normalization returns
0, and at `"-5"` it returns the 2-decimal rounding of the parsed value. -/
theorem C1_witness :
    normalizeSaleAmount "abc" = 0 ∧ normalizeSaleAmount "-5" = round2 (-5) :=
  ⟨(C1_amended_normalization "abc").1
    (by rw [parseFloat, show parseParts "abc" = none from by decide]),
   (C1_amended_normalization "-5").2 (-5)
    (by
      rw [parseFloat, show parseParts "-5" = some (-1, 5, 0, 0, 0) from by decide]
      norm_num)⟩

/-- C2: round-trip idempotence — recomputing the commission amount from the
submitted record's stored sale amount and stored 2-decimal commission
percentage, by the same multiply-and-round formula as line 87, yields exactly
the stored commission amount. -/
theorem C2_roundtrip (cfg : Config) (vol : ℚ) (fd : FormData) :
    round2 ((handleSubmit cfg vol fd).saleAmount *
        ((handleSubmit cfg vol fd).commissionPercentage / 100)) =
      (handleSubmit cfg vol fd).commissionAmount := by
  show round2 (normalizeSaleAmount fd.saleAmount *
      (round2 (calculateTotalCommission cfg (normalizeSaleAmount fd.saleAmount)
        vol fd.saleType) / 100)) = _
  rw [round2_calculateTotalCommission]
  rfl

/-- C3: the commission amount produced at submit time equals the normalized
sale amount times the resolved rate divided by 100, rounded to 2 decimal
places at the point it is computed. -/
theorem C3_commissionAmount (cfg : Config) (vol : ℚ) (fd : FormData) :
    (handleSubmit cfg vol fd).commissionAmount =
      round2 (normalizeSaleAmount fd.saleAmount *
        calculateTotalCommission cfg (normalizeSaleAmount fd.saleAmount)
          vol fd.saleType / 100) := by
  show round2 (normalizeSaleAmount fd.saleAmount *
      (calculateTotalCommission cfg (normalizeSaleAmount fd.saleAmount)
        vol fd.saleType / 100)) = _
  rw [mul_div_assoc]

/-- C4: on well-formed tier tables (thresholds ascending, rates
non-decreasing — the schedule shape the spec mandates), the resolved
commission rate is non-decreasing in prior volume for both sale types, and it
always lies in the closed interval [0, 100]. -/
theorem C4_rate_monotone_bounded (cfg : Config)
    (hdeed : wfTiers cfg.deedTiers) (htrust : wfTiers cfg.trustTiers)
    (a v₁ v₂ : ℚ) (ty : SaleType) (hv : v₁ ≤ v₂) :
    calculateTotalCommission cfg a v₁ ty ≤ calculateTotalCommission cfg a v₂ ty ∧
    0 ≤ calculateTotalCommission cfg a v₁ ty ∧
    calculateTotalCommission cfg a v₁ ty ≤ 100 := by
  have hwf : wfTiers (tiersFor cfg ty) := by
    cases ty
    · exact hdeed
    · exact htrust
  refine ⟨?_, ?_, ?_⟩
  · unfold calculateTotalCommission
    apply round2_mono
    apply min_le_min (le_refl 100)
    apply max_le_max (le_refl 0)
    exact resolveRate_mono _ _ _ (max_le_max (le_refl 0) hv) hwf
  · have h0 : (0 : ℚ) ≤ min 100 (max 0 (resolveRate (tiersFor cfg ty) (max 0 v₁))) :=
      le_min (by norm_num) (le_max_left 0 _)
    calc (0 : ℚ) = round2 0 := round2_zero.symm
      _ ≤ _ := round2_mono h0
  · have h100 : min 100 (max 0 (resolveRate (tiersFor cfg ty) (max 0 v₁))) ≤ 100 :=
      min_le_left _ _
    calc calculateTotalCommission cfg a v₁ ty ≤ round2 100 := round2_mono h100
      _ = 100 := round2_hundred

/-- C4, witness: on the sample schedule, raising prior volume from 0 to
20000 does not lower the DEED rate, and the rate at volume 0 is in [0, 100]. -/
theorem C4_witness :
    calculateTotalCommission sampleConfig 2500 0 SaleType.DEED ≤
      calculateTotalCommission sampleConfig 2500 20000 SaleType.DEED ∧
    0 ≤ calculateTotalCommission sampleConfig 2500 0 SaleType.DEED ∧
    calculateTotalCommission sampleConfig 2500 0 SaleType.DEED ≤ 100 :=
  C4_rate_monotone_bounded sampleConfig
    (by norm_num [wfTiers, sortedFrom, ratesFrom, sampleConfig])
    (by norm_num [wfTiers, sortedFrom, ratesFrom, sampleConfig])
    2500 0 20000 SaleType.DEED (by norm_num)

/-- C5: the productivity metric is `saleAmount / tourCount` for a positive
tour count and exactly 0 for a zero tour count; the function is total, so no
input makes it fail. -/
theorem C5_dailyVPG (x : ℚ) (t : ℤ) (ht : 0 < t) :
    calculateDailyVPG x t = x / (t : ℚ) ∧ calculateDailyVPG x 0 = 0 := by
  constructor
  · unfold calculateDailyVPG
    rw [if_pos ht]
  · unfold calculateDailyVPG
    norm_num

/-- C5, witness: `dailyProductivityMetric(1000, 4) = 250` and the zero tour
count yields 0. -/
theorem C5_witness :
    calculateDailyVPG 1000 4 = 1000 / ((4 : ℤ) : ℚ) ∧
      calculateDailyVPG 1000 0 = 0 :=
  C5_dailyVPG 1000 4 (by norm_num)

/-- C6: whenever the redeemed points do not exceed the available points the
FDI discount cost is exactly 0, and for a positive excess charge rate there
is a redemption above the allotment with strictly positive cost, so the
excess-charge branch is reachable. -/
theorem C6_fdiCost (cfg : Config) (hrate : 0 < cfg.fdiExcessRate)
    (p avail : ℚ) (hpa : p ≤ avail) :
    calculateFDICost cfg p avail = 0 ∧
    ∃ q : ℚ, avail < q ∧ 0 < calculateFDICost cfg q avail := by
  constructor
  · unfold calculateFDICost
    rw [if_pos (max_le_max (le_refl 0) hpa)]
  · refine ⟨max 0 avail + 1 / cfg.fdiExcessRate, ?_, ?_⟩
    · have h1 : (0 : ℚ) < 1 / cfg.fdiExcessRate := by positivity
      calc avail ≤ max 0 avail := le_max_right 0 avail
        _ < max 0 avail + 1 / cfg.fdiExcessRate := by linarith
    · unfold calculateFDICost
      have h1 : (0 : ℚ) < 1 / cfg.fdiExcessRate := by positivity
      have hq : (0 : ℚ) ≤ max 0 avail + 1 / cfg.fdiExcessRate := by
        have := le_max_left (0 : ℚ) avail
        linarith
      rw [max_eq_right hq]
      rw [if_neg (by push_neg; linarith)]
      have hx : max 0 avail + 1 / cfg.fdiExcessRate - max 0 avail = 1 / cfg.fdiExcessRate := by
        ring
      rw [hx, one_div, inv_mul_cancel₀ (ne_of_gt hrate), round2_one]
      norm_num

/-- C6, witness: with the sample configuration, redeeming 3 of 10 available
points is free, and some redemption above 10 points has positive cost. -/
theorem C6_witness :
    calculateFDICost sampleConfig 3 10 = 0 ∧
    ∃ q : ℚ, 10 < q ∧ 0 < calculateFDICost sampleConfig q 10 :=
  C6_fdiCost sampleConfig (by norm_num [sampleConfig]) 3 10 (by norm_num)

/-- C7: for a non-negative points-per-dollar ratio, `fdiAvailablePoints` maps
a sale amount of 0 to 0 points and is monotonically non-decreasing in the
sale amount. -/
theorem C7_fdiPoints (cfg : Config) (hrate : 0 ≤ cfg.fdiPointsRate)
    (a b : ℚ) (hab : a ≤ b) :
    calculateFDIPoints cfg 0 = 0 ∧
      calculateFDIPoints cfg a ≤ calculateFDIPoints cfg b := by
  constructor
  · unfold calculateFDIPoints
    rw [max_self, zero_mul, round2_zero]
  · unfold calculateFDIPoints
    apply round2_mono
    exact mul_le_mul_of_nonneg_right (max_le_max (le_refl 0) hab) hrate

/-- C7, witness: with the sample ratio, 0 dollars grant 0 points and the
points at a 100-dollar sale do not exceed those at a 200-dollar sale. -/
theorem C7_witness :
    calculateFDIPoints sampleConfig 0 = 0 ∧
      calculateFDIPoints sampleConfig 100 ≤ calculateFDIPoints sampleConfig 200 :=
  C7_fdiPoints sampleConfig (by norm_num [sampleConfig]) 100 200 (by norm_num)

/-- C8, counterexample: the claim says a negative redeemed-points string is
fed to the cost computation as 0, but `parseFloat("-5") || 0` evaluates to
`-5` (truthy), so `handleFDIChange` stores `-5` as `fdiGivenPoints`. -/
theorem C8_counterexample :
    parseOr0 "-5" = -5 ∧ parseOr0 "-5" ≠ 0 ∧
      (handleFDIChange sampleConfig sampleForm "-5").fdiGivenPoints = -5 := by
  have hp : parseFloat "-5" = some (-5) := by
    rw [parseFloat, show parseParts "-5" = some (-1, 5, 0, 0, 0) from by decide]
    norm_num
  have h : parseOr0 "-5" = -5 := by
    rw [parseOr0, hp]
    norm_num [jsOr]
  exact ⟨h, by rw [h]; norm_num, by show parseOr0 "-5" = -5; exact h⟩

/-- C8, amended: the redeemed-points value fed to the discount-cost
computation is 0 whenever the string is non-numeric (parsing fails or yields
NaN) — in particular a blank FDI field yields 0 and a discount cost of 0
regardless of the points available; a string parsing to a number is fed
through as that number, without clamping of negative values. -/
theorem C8_amended (cfg : Config) (fd : FormData) (s : String) :
    (parseFloat s = none →
      (handleFDIChange cfg fd s).fdiGivenPoints = 0 ∧
        (handleFDIChange cfg fd s).fdiCost = 0) ∧
    (∀ x : ℚ, parseFloat s = some x →
      (handleFDIChange cfg fd s).fdiGivenPoints = jsOr x 0) := by
  constructor
  · intro h
    have hg : parseOr0 s = 0 := by rw [parseOr0, h]
    constructor
    · show parseOr0 s = 0
      exact hg
    · show calculateFDICost cfg (parseOr0 s) fd.fdiPoints = 0
      rw [hg]
      unfold calculateFDICost
      rw [if_pos (by rw [max_self]; exact le_max_left 0 _)]
  · intro x h
    show parseOr0 s = jsOr x 0
    rw [parseOr0, h]

/-- C8, witness: a blank FDI field yields a stored redeemed-points value of
0 and a discount cost of 0 in the sample form state. -/
theorem C8_witness :
    (handleFDIChange sampleConfig sampleForm "").fdiGivenPoints = 0 ∧
      (handleFDIChange sampleConfig sampleForm "").fdiCost = 0 :=
  (C8_amended sampleConfig sampleForm "").1
    (by rw [parseFloat, show parseParts "" = none from by decide])

/-- C9: frame condition of the redeemed-points edit — `handleFDIChange`
updates only `fdi`, `fdiGivenPoints` and `fdiCost`; every other field of the
form state is left unchanged. -/
theorem C9_frame (cfg : Config) (fd : FormData) (s : String) :
    (handleFDIChange cfg fd s).date = fd.date ∧
    (handleFDIChange cfg fd s).clientLastName = fd.clientLastName ∧
    (handleFDIChange cfg fd s).leadNumber = fd.leadNumber ∧
    (handleFDIChange cfg fd s).numberOfTours = fd.numberOfTours ∧
    (handleFDIChange cfg fd s).managerName = fd.managerName ∧
    (handleFDIChange cfg fd s).saleAmount = fd.saleAmount ∧
    (handleFDIChange cfg fd s).commissionPercentage = fd.commissionPercentage ∧
    (handleFDIChange cfg fd s).commissionAmount = fd.commissionAmount ∧
    (handleFDIChange cfg fd s).fdiPoints = fd.fdiPoints ∧
    (handleFDIChange cfg fd s).notes = fd.notes ∧
    (handleFDIChange cfg fd s).saleType = fd.saleType ∧
    (handleFDIChange cfg fd s).isCancelled = fd.isCancelled :=
  ⟨rfl, rfl, rfl, rfl, rfl, rfl, rfl, rfl, rfl, rfl, rfl, rfl⟩

/-- C10: submit-time consistency — the record passed to `onSubmit` has its
derived fields recomputed fresh from the current raw inputs (normalized
amount text, fdi text, tour count, sale type); two form states that agree on
those raw inputs but differ in cached derived fields submit identical derived
values. -/
theorem C10_submit_fresh (cfg : Config) (vol : ℚ) (fd fd' : FormData)
    (hAmt : fd'.saleAmount = fd.saleAmount) (hFdi : fd'.fdi = fd.fdi)
    (hTours : fd'.numberOfTours = fd.numberOfTours)
    (hTy : fd'.saleType = fd.saleType) :
    (handleSubmit cfg vol fd).saleAmount = normalizeSaleAmount fd.saleAmount ∧
    (handleSubmit cfg vol fd).fdiCost =
      calculateFDICost cfg (parseOr0 fd.fdi)
        (calculateFDIPoints cfg (normalizeSaleAmount fd.saleAmount)) ∧
    (handleSubmit cfg vol fd).dailyVPG =
      calculateDailyVPG (normalizeSaleAmount fd.saleAmount) fd.numberOfTours ∧
    (handleSubmit cfg vol fd').saleAmount = (handleSubmit cfg vol fd).saleAmount ∧
    (handleSubmit cfg vol fd').commissionPercentage =
      (handleSubmit cfg vol fd).commissionPercentage ∧
    (handleSubmit cfg vol fd').commissionAmount =
      (handleSubmit cfg vol fd).commissionAmount ∧
    (handleSubmit cfg vol fd').fdiPoints = (handleSubmit cfg vol fd).fdiPoints ∧
    (handleSubmit cfg vol fd').fdiGivenPoints =
      (handleSubmit cfg vol fd).fdiGivenPoints ∧
    (handleSubmit cfg vol fd').fdiCost = (handleSubmit cfg vol fd).fdiCost ∧
    (handleSubmit cfg vol fd').dailyVPG = (handleSubmit cfg vol fd).dailyVPG := by
  refine ⟨rfl, rfl, rfl, ?_, ?_, ?_, ?_, ?_, ?_, ?_⟩ <;>
    simp only [handleSubmit, hAmt, hFdi, hTours, hTy]

/-- C10, witness: the initial form state and a copy with stale cached derived
fields submit the same derived values, recomputed from the raw inputs. -/
theorem C10_witness :
    (handleSubmit sampleConfig 0 sampleForm).saleAmount =
      normalizeSaleAmount sampleForm.saleAmount ∧
    (handleSubmit sampleConfig 0 sampleForm).fdiCost =
      calculateFDICost sampleConfig (parseOr0 sampleForm.fdi)
        (calculateFDIPoints sampleConfig (normalizeSaleAmount sampleForm.saleAmount)) ∧
    (handleSubmit sampleConfig 0 sampleForm).dailyVPG =
      calculateDailyVPG (normalizeSaleAmount sampleForm.saleAmount)
        sampleForm.numberOfTours ∧
    (handleSubmit sampleConfig 0 sampleFormStale).saleAmount =
      (handleSubmit sampleConfig 0 sampleForm).saleAmount ∧
    (handleSubmit sampleConfig 0 sampleFormStale).commissionPercentage =
      (handleSubmit sampleConfig 0 sampleForm).commissionPercentage ∧
    (handleSubmit sampleConfig 0 sampleFormStale).commissionAmount =
      (handleSubmit sampleConfig 0 sampleForm).commissionAmount ∧
    (handleSubmit sampleConfig 0 sampleFormStale).fdiPoints =
      (handleSubmit sampleConfig 0 sampleForm).fdiPoints ∧
    (handleSubmit sampleConfig 0 sampleFormStale).fdiGivenPoints =
      (handleSubmit sampleConfig 0 sampleForm).fdiGivenPoints ∧
    (handleSubmit sampleConfig 0 sampleFormStale).fdiCost =
      (handleSubmit sampleConfig 0 sampleForm).fdiCost ∧
    (handleSubmit sampleConfig 0 sampleFormStale).dailyVPG =
      (handleSubmit sampleConfig 0 sampleForm).dailyVPG :=
  C10_submit_fresh sampleConfig 0 sampleForm sampleFormStale rfl rfl rfl rfl

end SalesForm
